import Mathlib

/-!
Verification development for `scripts/verify-obtainium.py`.

The script validates an Obtainium JSON configuration: it loads the file,
then runs five independent checks (required fields, URL validation, version
extraction pattern, APK filter pattern, GitHub Actions compatibility) and
maps the results to a process exit status.

Embedding choices:
* JSON values are modelled by `JValue`; a configuration is a `JValue`
  (the checks access it as a Python dict via `.get`).
* Python runtime faults that can escape a check are modelled by `PyErr`;
  each check is a function `JValue → Except PyErr (Bool × List String × JValue)`
  returning its boolean result, the lines it prints, and the configuration
  value as it stands when the check returns (the script performs only reads,
  which is what the final component lets us state and prove).
* The host regular-expression facility (`re.search`) is modelled by an
  executable parser plus backtracking matcher (`reSearch`) covering the
  pattern constructs the configuration patterns use (literals, escapes,
  `\d`, `.`, groups, alternation, `*` `+` `?`, `^`, `$`).  Patterns outside
  this subset are treated as failing to compile, which the per-case
  handlers of the script treat as a case failure.
* File access and JSON parsing in `load_config` are external to the
  program; they are modelled by a `FileState` describing the outcome.
-/

set_option maxRecDepth 8192

/-- A JSON-shaped Python value, as produced by `json.load`. -/
inductive JValue where
  | str (s : String)
  | num (n : Int)
  | bool (b : Bool)
  | null
  | arr (elems : List JValue)
  | obj (fields : List (String × JValue))

/-- Python runtime faults that can escape one of the checks. -/
inductive PyErr where
  | attributeError
  | typeError
  | valueError
  | indexError
deriving DecidableEq

/-- Python truthiness (`bool(v)`) of a JSON-shaped value. -/
def truthy : JValue → Bool
  | .str s => !(s == "")
  | .num n => !(n == 0)
  | .bool b => b
  | .null => false
  | .arr l => !l.isEmpty
  | .obj l => !l.isEmpty

/-- Key lookup in a dict represented as an association list. -/
def dictLookup : List (String × JValue) → String → Option JValue
  | [], _ => none
  | (k, v) :: rest, key => if k == key then some v else dictLookup rest key

/-- Python `dict.get(key, default)`. -/
def dictGet (fields : List (String × JValue)) (key : String) (dflt : JValue) : JValue :=
  (dictLookup fields key).getD dflt

/-- `v.get(key, default)` on an arbitrary value: calling `.get` on a
non-dict raises `AttributeError`. -/
def jvGet : JValue → String → JValue → Except PyErr JValue
  | .obj fields, key, dflt => .ok (dictGet fields key dflt)
  | _, _, _ => .error .attributeError

/-- Read a run of decimal digits, accumulating their value. -/
def natDigits : List Char → Nat → Option Nat
  | [], acc => some acc
  | c :: rest, acc =>
    if c.isDigit then natDigits rest (10 * acc + (c.toNat - 48)) else none

/-- Parse a decimal integer with an optional sign, as `int` does for a
plain numeric string. -/
def pyIntOfChars : List Char → Option Int
  | [] => none
  | '-' :: rest =>
    if rest.isEmpty then none else (natDigits rest 0).map (fun n => -(n : Int))
  | '+' :: rest =>
    if rest.isEmpty then none else (natDigits rest 0).map (fun n => (n : Int))
  | cs => (natDigits cs 0).map (fun n => (n : Int))

/-- Python `int(v)` on a JSON-shaped value: ints pass through, numeric
strings are parsed (raising `ValueError` otherwise), booleans coerce,
other values raise `TypeError`. -/
def pyInt : JValue → Except PyErr Int
  | .num n => .ok n
  | .str s =>
    match pyIntOfChars s.toList with
    | some n => .ok n
    | none => .error .valueError
  | .bool b => .ok (if b then 1 else 0)
  | _ => .error .typeError

/-- Python `str(v)` as used in the script's diagnostic lines (only the
string case is ever relied upon by the properties below). -/
def pyStr : JValue → String
  | .str s => s
  | .num n => toString n
  | .bool b => if b then "True" else "False"
  | .null => "None"
  | .arr _ => "[...]"
  | .obj _ => "..."

/-- Python `s.startswith(pre)` for strings. -/
def startsWithStr (s pre : String) : Bool :=
  pre.toList.isPrefixOf s.toList

/-- Python `v == s` where `s` is a string: true exactly for an equal
string (values of other types never equal a string). -/
def pyEqStr : JValue → String → Bool
  | .str t, s => t == s
  | _, _ => false

/-- Substring containment on character lists. -/
def subOf : List Char → List Char → Bool
  | needle, [] => needle.isEmpty
  | needle, c :: rest => needle.isPrefixOf (c :: rest) || subOf needle rest

/-- Python `needle in hay` for strings (substring containment); on a
non-string right operand the script's uses would raise `TypeError`. -/
def pyInStr (needle : String) : JValue → Except PyErr Bool
  | .str hay => .ok (subOf needle.toList hay.toList)
  | _ => .error .typeError

/-! ## A model of the host regex facility (`re`)

Abstract syntax, a recursive-descent pattern reader and a backtracking
matcher with capture groups.  Both are fuel-based total functions. -/

/-- Abstract syntax of the supported pattern subset. -/
inductive Regex where
  | epsilon
  | char (c : Char)
  | anyChar
  | digitCls
  | seq (r₁ r₂ : Regex)
  | alt (r₁ r₂ : Regex)
  | star (r : Regex)
  | group (idx : Nat) (r : Regex)
  | lineStart
  | lineEnd
deriving DecidableEq

/-- Structural size of a pattern, used to bound matcher fuel. -/
def Regex.size : Regex → Nat
  | .epsilon => 1
  | .char _ => 1
  | .anyChar => 1
  | .digitCls => 1
  | .seq r₁ r₂ => r₁.size + r₂.size + 1
  | .alt r₁ r₂ => r₁.size + r₂.size + 1
  | .star r => r.size + 1
  | .group _ r => r.size + 1
  | .lineStart => 1
  | .lineEnd => 1

/-- Recursive-descent reader for the pattern subset, as one
fuel-indexed function so that it reduces definitionally.  The `mode`
selects the grammar production: `0` reads an alternation (`a|b|c`), `1` a
concatenation of repeated atoms, `2` one atom with an optional `*`, `+` or
`?` quantifier, and any other value a single atom (a literal, an escape,
`.`, `^`, `$` or a parenthesised capture group; unsupported constructs are
a compile error).  `g` is the number of capture groups opened so far; the
result carries the remaining input and the updated count. -/
def parseRe : Nat → Nat → List Char → Nat → Except Unit (Regex × List Char × Nat)
  | 0, _, _, _ => .error ()
  | fuel + 1, 0, cs, g =>
    match parseRe fuel 1 cs g with
    | .error e => .error e
    | .ok (r₁, cs₁, g₁) =>
      match cs₁ with
      | '|' :: rest =>
        match parseRe fuel 0 rest g₁ with
        | .error e => .error e
        | .ok (r₂, cs₂, g₂) => .ok (.alt r₁ r₂, cs₂, g₂)
      | _ => .ok (r₁, cs₁, g₁)
  | fuel + 1, 1, cs, g =>
    match cs with
    | [] => .ok (.epsilon, [], g)
    | ')' :: _ => .ok (.epsilon, cs, g)
    | '|' :: _ => .ok (.epsilon, cs, g)
    | _ =>
      match parseRe fuel 2 cs g with
      | .error e => .error e
      | .ok (r₁, cs₁, g₁) =>
        match parseRe fuel 1 cs₁ g₁ with
        | .error e => .error e
        | .ok (r₂, cs₂, g₂) => .ok (.seq r₁ r₂, cs₂, g₂)
  | fuel + 1, 2, cs, g =>
    match parseRe fuel 3 cs g with
    | .error e => .error e
    | .ok (r, cs₁, g₁) =>
      match cs₁ with
      | '*' :: rest => .ok (.star r, rest, g₁)
      | '+' :: rest => .ok (.seq r (.star r), rest, g₁)
      | '?' :: rest => .ok (.alt r .epsilon, rest, g₁)
      | _ => .ok (r, cs₁, g₁)
  | fuel + 1, _, cs, g =>
    match cs with
    | [] => .error ()
    | '(' :: rest =>
      match parseRe fuel 0 rest (g + 1) with
      | .error e => .error e
      | .ok (r, cs₁, g₁) =>
        match cs₁ with
        | ')' :: rest₁ => .ok (.group (g + 1) r, rest₁, g₁)
        | _ => .error ()
    | ')' :: _ => .error ()
    | '*' :: _ => .error ()
    | '+' :: _ => .error ()
    | '?' :: _ => .error ()
    | '|' :: _ => .error ()
    | '[' :: _ => .error ()
    | '.' :: rest => .ok (.anyChar, rest, g)
    | '^' :: rest => .ok (.lineStart, rest, g)
    | '$' :: rest => .ok (.lineEnd, rest, g)
    | '\\' :: c :: rest =>
      if c == 'd' then .ok (.digitCls, rest, g)
      else if c.isAlphanum then .error ()
      else .ok (.char c, rest, g)
    | '\\' :: [] => .error ()
    | c :: rest => .ok (.char c, rest, g)

/-- Compile a pattern string to its syntax tree and its number of capture
groups; `.error` models `re.error` (a pattern the engine rejects). -/
def compile (p : String) : Except Unit (Regex × Nat) :=
  let cs := p.toList
  match parseRe (4 * cs.length + 8) 0 cs 0 with
  | .ok (r, [], g) => .ok (r, g)
  | _ => .error ()

/-- Capture state: for each group index (1-based, shifted down by one),
the span `(start, stop)` it last captured, if any. -/
abbrev Caps := List (Option (Nat × Nat))

/-- Backtracking matcher in continuation-passing style.  `mrun input fuel r
pos caps k` tries to match `r` at offset `pos`, calling `k` with the end
offset and updated captures on success.  Greedy quantifiers, leftmost
alternation, as in the host facility. -/
def mrun (input : List Char) : Nat → Regex → Nat → Caps →
    (Nat → Caps → Option (Nat × Caps)) → Option (Nat × Caps)
  | 0, _, _, _, _ => none
  | fuel + 1, r, pos, caps, k =>
    match r with
    | .epsilon => k pos caps
    | .char c =>
      match input.get? pos with
      | some c₂ => if c₂ == c then k (pos + 1) caps else none
      | none => none
    | .anyChar =>
      match input.get? pos with
      | some c₂ => if c₂ == '\n' then none else k (pos + 1) caps
      | none => none
    | .digitCls =>
      match input.get? pos with
      | some c₂ => if c₂.isDigit then k (pos + 1) caps else none
      | none => none
    | .seq r₁ r₂ =>
      mrun input fuel r₁ pos caps (fun p c => mrun input fuel r₂ p c k)
    | .alt r₁ r₂ =>
      match mrun input fuel r₁ pos caps k with
      | some res => some res
      | none => mrun input fuel r₂ pos caps k
    | .star r₁ =>
      match mrun input fuel r₁ pos caps
          (fun p c => if p == pos then none else mrun input fuel (.star r₁) p c k) with
      | some res => some res
      | none => k pos caps
    | .group i r₁ =>
      mrun input fuel r₁ pos caps (fun p c => k p (c.set (i - 1) (some (pos, p))))
    | .lineStart => if pos == 0 then k pos caps else none
    | .lineEnd => if pos == input.length then k pos caps else none

/-- The slice `input[a:b]` as a string. -/
def sliceStr (input : List Char) (a b : Nat) : String :=
  String.mk ((input.drop a).take (b - a))

/-- A successful match: the matched text and, per capture group of the
pattern, the captured text if the group participated. -/
structure RMatch where
  matched : String
  groups : List (Option String)
deriving DecidableEq

/-- `m.group(i)` of the host facility: `0` is the whole match, `1..n` the
capture groups (`None` for a group that did not participate), anything
else raises `IndexError` (which is not a `re.error`). -/
def RMatch.group (m : RMatch) (i : Int) : Except PyErr (Option String) :=
  if i = 0 then .ok (some m.matched)
  else if 1 ≤ i ∧ i ≤ (m.groups.length : Int) then .ok (m.groups.getD (i - 1).toNat none)
  else .error .indexError

/-- Fuel bound for the matcher at one start offset. -/
def matchFuel (r : Regex) (n : Nat) : Nat :=
  (r.size + 2) * (n + 2) + 8

/-- Try successive start offsets (leftmost match), building the `RMatch`
from the first offset where the pattern matches. -/
def searchFrom (input : List Char) (r : Regex) (ng : Nat) : Nat → Nat → Option RMatch
  | _, 0 => none
  | pos, fuel + 1 =>
    match mrun input (matchFuel r input.length) r pos (List.replicate ng none)
        (fun p c => some (p, c)) with
    | some (pEnd, caps) =>
      some ⟨sliceStr input pos pEnd,
        caps.map (fun o => o.map (fun ab => sliceStr input ab.1 ab.2))⟩
    | none =>
      if pos < input.length then searchFrom input r ng (pos + 1) fuel else none

/-- Model of `re.search(pattern, s)` on a string pattern: `.error ()` is a
pattern-compilation failure (`re.error`), `.ok none` is "no match". -/
def reSearch (p s : String) : Except Unit (Option RMatch) :=
  match compile p with
  | .error _ => .error ()
  | .ok (r, ng) => .ok (searchFrom s.toList r ng 0 (s.toList.length + 1))

/-! ## The five checks of `verify-obtainium.py`

Each check is embedded as `JValue → Except PyErr (Bool × List String × JValue)`:
its boolean result, the diagnostic lines it prints, and the configuration
value when the check returns.  An `.error` is a Python exception escaping
the check (to be caught at the runner's per-check boundary). -/

/-- The required field list of `validate_required_fields`. -/
def requiredFields : List String :=
  ["id", "url", "name", "description", "additionalSettings"]

/-- The fields the loop of `validate_required_fields` collects: absent from
the mapping, or present with a falsy value. -/
def missingOf (fields : List (String × JValue)) : List String :=
  requiredFields.filter (fun f =>
    match dictLookup fields f with
    | none => true
    | some v => !(truthy v))

/-- `validate_required_fields(config)`: collects the missing required
fields and fails, reporting them in one message, when any are missing.
A non-mapping configuration is modelled as a type fault. -/
def validate_required_fields (config : JValue) : Except PyErr (Bool × List String × JValue) :=
  match config with
  | .obj fields =>
    let missing := missingOf fields
    if missing.isEmpty then
      .ok (true, ["✅ All required fields present"], .obj fields)
    else
      .ok (false, ["❌ Missing required fields: " ++ String.intercalate ", " missing], .obj fields)
  | _ => .error .typeError

/-- `validate_urls(config)`: `url` must start with `https://github.com/`,
and a truthy `sourceUrl` must equal `url`. -/
def validate_urls (config : JValue) : Except PyErr (Bool × List String × JValue) :=
  match jvGet config "url" (.str "") with
  | .error e => .error e
  | .ok urlV =>
    match jvGet config "sourceUrl" (.str "") with
    | .error e => .error e
    | .ok srcV =>
      match urlV with
      | .str url =>
        if !(startsWithStr url "https://github.com/") then
          .ok (false, ["❌ Repository URL should start with https://github.com/"], config)
        else if truthy srcV && !(pyEqStr srcV url) then
          .ok (false, ["❌ sourceUrl should match url field"], config)
        else
          .ok (true, ["✅ URLs are valid and consistent"], config)
      | _ => .error .attributeError

/-- The six fixed release-tag strings of `test_version_extraction`. -/
def versionCases : List String :=
  ["v1.0.0", "v1.2.3", "v10.15.22", "v2.0.0-beta.1", "release-v1.5.0", "invalid-tag"]

/-- One iteration of the `test_version_extraction` loop: search the
pattern in the tag; on a match with enough capture groups extract the
requested group and count a success; a pattern-compilation error
(`re.error`) is caught and is a per-case failure; any other fault (for
example `IndexError` from `match.group`) escapes the loop. -/
def versionStep (patternV : JValue) (matchGroup : Int) (tag : String) :
    Except PyErr (Bool × String) :=
  match patternV with
  | .str p =>
    match reSearch p tag with
    | .error _ => .ok (false, "  ❌ Regex error for " ++ tag)
    | .ok none => .ok (false, "  ❌ " ++ tag ++ " -> No match")
    | .ok (some m) =>
      if matchGroup ≤ (m.groups.length : Int) then
        match m.group matchGroup with
        | .ok version =>
          .ok (true, "  ✅ " ++ tag ++ " -> " ++ version.getD "None")
        | .error e => .error e
      else
        .ok (false, "  ❌ " ++ tag ++ " -> No match")
  | _ => .error .typeError

/-- Run a per-case loop body over the test-case table, counting
successes and collecting the printed lines; a fault escaping the body
aborts the loop. -/
def runCaseLoop {α : Type} (step : α → Except PyErr (Bool × String)) :
    List α → Except PyErr (Nat × List String)
  | [] => .ok (0, [])
  | c :: cs =>
    match step c with
    | .error e => .error e
    | .ok (b, line) =>
      match runCaseLoop step cs with
      | .error e => .error e
      | .ok (n, lines) => .ok ((if b then 1 else 0) + n, line :: lines)

/-- `test_version_extraction(config)`: reads the pattern and
`matchGroupToUse` (default `'1'`, coerced by `int`), fails at once on an
empty pattern, otherwise runs the six tag cases and passes when at least
3 succeed. -/
def test_version_extraction (config : JValue) : Except PyErr (Bool × List String × JValue) :=
  match jvGet config "additionalSettings" (.obj []) with
  | .error e => .error e
  | .ok settings =>
    match jvGet settings "versionExtractionRegEx" (.str "") with
    | .error e => .error e
    | .ok patternV =>
      match jvGet settings "matchGroupToUse" (.str "1") with
      | .error e => .error e
      | .ok mgV =>
        match pyInt mgV with
        | .error e => .error e
        | .ok matchGroup =>
          if !(truthy patternV) then
            .ok (false, ["❌ No version extraction regex specified"], config)
          else
            match runCaseLoop (versionStep patternV matchGroup) versionCases with
            | .error e => .error e
            | .ok (n, lines) =>
              let header := "🔍 Testing version extraction pattern: " ++ pyStr patternV
              if 3 ≤ n then
                .ok (true, header :: lines ++ ["✅ Version extraction pattern working correctly"], config)
              else
                .ok (false, header :: lines ++ ["❌ Version extraction pattern needs improvement"], config)

/-- The six fixed (asset name, expected match) pairs of `test_apk_filter`. -/
def apkCases : List (String × Bool) :=
  [("app-release.apk", true),
   ("app-debug.apk", false),
   ("mobdeck-release.apk", false),
   ("app-release.apk.sha256", false),
   ("app-release-universal.apk", false),
   ("something-app-release.apk", true)]

/-- One iteration of the `test_apk_filter` loop: the case succeeds when
the boolean outcome of the search equals the expected boolean; a
pattern-compilation error is caught and is a per-case failure. -/
def apkStep (patternV : JValue) (case : String × Bool) : Except PyErr (Bool × String) :=
  match patternV with
  | .str p =>
    match reSearch p case.1 with
    | .error _ => .ok (false, "  ❌ Regex error for " ++ case.1)
    | .ok r =>
      if r.isSome == case.2 then
        .ok (true, "  " ++ (if case.2 then "✅" else "⚪") ++ " " ++ case.1 ++ " -> " ++
          (if case.2 then "Match" else "Ignore"))
      else
        .ok (false, "  ❌ " ++ case.1 ++ " -> Expected " ++
          (if case.2 then "Match" else "Ignore") ++ ", got " ++
          (if r.isSome then "Match" else "Ignore"))
  | _ => .error .typeError

/-- `test_apk_filter(config)`: reads the filter pattern, fails at once on
an empty pattern, otherwise runs the six filename cases and passes when
at least `len(cases) - 1` of them succeed. -/
def test_apk_filter (config : JValue) : Except PyErr (Bool × List String × JValue) :=
  match jvGet config "additionalSettings" (.obj []) with
  | .error e => .error e
  | .ok settings =>
    match jvGet settings "apkFilterRegEx" (.str "") with
    | .error e => .error e
    | .ok patternV =>
      if !(truthy patternV) then
        .ok (false, ["❌ No APK filter regex specified"], config)
      else
        match runCaseLoop (apkStep patternV) apkCases with
        | .error e => .error e
        | .ok (n, lines) =>
          let header := "🔍 Testing APK filter pattern: " ++ pyStr patternV
          if apkCases.length - 1 ≤ n then
            .ok (true, header :: lines ++ ["✅ APK filter pattern working correctly"], config)
          else
            .ok (false, header :: lines ++ ["❌ APK filter pattern needs adjustment"], config)

/-- `check_github_compatibility(config)`: the filter pattern must contain
the substring `app-release`, the version pattern must contain both `v(`
and `\d+\.\d+\.\d+`; the prerelease sub-check always records a pass and
only picks the printed line. -/
def check_github_compatibility (config : JValue) : Except PyErr (Bool × List String × JValue) :=
  match jvGet config "additionalSettings" (.obj []) with
  | .error e => .error e
  | .ok settings =>
    match jvGet settings "apkFilterRegEx" (.str "") with
    | .error e => .error e
    | .ok apkV =>
      match pyInStr "app-release" apkV with
      | .error e => .error e
      | .ok c₁ =>
        let line₁ :=
          if c₁ then "  ✅ APK filter matches GitHub Actions output (app-release.apk)"
          else "  ❌ APK filter may not match GitHub Actions output"
        match jvGet settings "versionExtractionRegEx" (.str "") with
        | .error e => .error e
        | .ok verV =>
          match pyInStr "v(" verV with
          | .error e => .error e
          | .ok c₂a =>
            match (if c₂a then pyInStr "\\d+\\.\\d+\\.\\d+" verV else .ok false) with
            | .error e => .error e
            | .ok c₂b =>
              let c₂ := c₂a && c₂b
              let line₂ :=
                if c₂ then "  ✅ Version extraction supports semantic versioning (v1.2.3)"
                else "  ❌ Version extraction may not support semantic versioning"
              match jvGet settings "includePrereleases" (.bool true) with
              | .error e => .error e
              | .ok preV =>
                let line₃ :=
                  if !(truthy preV) then "  ✅ Prereleases disabled (stable releases only)"
                  else "  ⚠️  Prereleases enabled (may include beta/alpha versions)"
                let checks := [c₁, c₂, true]
                let lines := ["🔍 Checking GitHub Actions compatibility...", line₁, line₂, line₃]
                if checks.all id then
                  .ok (true, lines ++ ["✅ Configuration compatible with GitHub Actions workflow"], config)
                else
                  .ok (false, lines ++ ["❌ Configuration may have compatibility issues"], config)

/-! ## Loader and runner -/

/-- The state of the external configuration file: absent, present but not
well-formed JSON, or present and parsing to a value. -/
inductive FileState where
  | absent
  | invalid
  | valid (v : JValue)

/-- `load_config()`: the file system and JSON parser are external; an
absent file or a parse failure yield `None`, otherwise the parsed value. -/
def load_config : FileState → Option JValue
  | .absent => none
  | .invalid => none
  | .valid v => some v

/-- The per-check boundary of `main`: the check's boolean, with any
escaping fault caught and recorded as a failure for that check. -/
def runBoundary (check : JValue → Except PyErr (Bool × List String × JValue))
    (config : JValue) : Bool :=
  match check config with
  | .ok (b, _, _) => b
  | .error _ => false

/-- The ordered check table of `main`. -/
def checkTable : List (String × (JValue → Except PyErr (Bool × List String × JValue))) :=
  [("Required Fields", validate_required_fields),
   ("URL Validation", validate_urls),
   ("Version Extraction", test_version_extraction),
   ("APK Filter", test_apk_filter),
   ("GitHub Compatibility", check_github_compatibility)]

/-- `main()`: load the configuration (exiting with status 1 when the
loaded value is falsy), run the five checks each inside the per-check
boundary, and exit 0 exactly when every test passed.  The result is the
process exit status together with the recorded check results. -/
def mainRun (fs : FileState) : Nat × List Bool :=
  match load_config fs with
  | none => (1, [])
  | some config =>
    if !(truthy config) then (1, [])
    else
      let results := checkTable.map (fun t => runBoundary t.2 config)
      if results.count true = results.length then (0, results) else (1, results)

/-! ## Claim-side predicates and concrete fixtures -/

/-- Claim-side success of one version-tag case: the unanchored search of
the pattern in the tag finds a match and the match has at least
`matchGroup` capture groups. -/
def vClaimSuccess (p : String) (matchGroup : Int) (tag : String) : Bool :=
  match reSearch p tag with
  | .ok (some m) => decide (matchGroup ≤ (m.groups.length : Int))
  | _ => false

/-- Claim-side success of one APK filter case: the boolean outcome of the
unanchored search equals the expected boolean. -/
def apkClaimSuccess (p : String) (case : String × Bool) : Bool :=
  match reSearch p case.1 with
  | .ok r => r.isSome == case.2
  | .error _ => false

/-- The end-to-end configuration of the spec's first scenario. -/
def cfg8 : JValue := .obj
  [("id", .str "mobdeck"),
   ("url", .str "https://github.com/x/y"),
   ("name", .str "Mobdeck"),
   ("description", .str "Read-later client"),
   ("additionalSettings", .obj
     [("apkFilterRegEx", .str "app-release\\.apk$"),
      ("versionExtractionRegEx", .str "v(\\d+\\.\\d+\\.\\d+)")])]

/-- A configuration with a negative `matchGroupToUse`: the pattern `v`
matches all six tags, and `match.group(-1)` raises `IndexError`. -/
def settingsNeg : List (String × JValue) :=
  [("versionExtractionRegEx", .str "v"), ("matchGroupToUse", .num (-1))]

/-- The configuration wrapping `settingsNeg`. -/
def cfgNeg : List (String × JValue) := [("additionalSettings", .obj settingsNeg)]

/-- Settings used by the witness of the version-extraction theorem. -/
def wSettingsV : List (String × JValue) :=
  [("versionExtractionRegEx", .str "v(\\d+\\.\\d+\\.\\d+)"), ("matchGroupToUse", .num 1)]

/-- Configuration used by the witness of the version-extraction theorem. -/
def wCfgV : List (String × JValue) := [("additionalSettings", .obj wSettingsV)]

/-- Settings used by the witness of the APK filter theorem. -/
def wSettingsA : List (String × JValue) :=
  [("apkFilterRegEx", .str "app-release\\.apk$")]

/-- Configuration used by the witness of the APK filter theorem. -/
def wCfgA : List (String × JValue) := [("additionalSettings", .obj wSettingsA)]

/-- Fields with `name` present but empty and `description` absent. -/
def wFieldsMissing : List (String × JValue) :=
  [("id", .str "a"), ("url", .str "u"),
   ("additionalSettings", .obj [("x", .null)]), ("name", .str "")]

/-- Settings for the compatibility witness, prereleases disabled. -/
def wSettingsC₁ : List (String × JValue) :=
  [("apkFilterRegEx", .str "app-release\\.apk$"),
   ("versionExtractionRegEx", .str "v(\\d+\\.\\d+\\.\\d+)"),
   ("includePrereleases", .bool false)]

/-- Settings for the compatibility witness, prereleases enabled. -/
def wSettingsC₂ : List (String × JValue) :=
  [("apkFilterRegEx", .str "app-release\\.apk$"),
   ("versionExtractionRegEx", .str "v(\\d+\\.\\d+\\.\\d+)"),
   ("includePrereleases", .bool true)]

/-- Configuration used by the witness of the URL theorem. -/
def wCfgU : List (String × JValue) := [("url", .str "https://github.com/x/y")]

/-- Configuration wrapping `wSettingsC₁`. -/
def wCfgC₁ : List (String × JValue) := [("additionalSettings", .obj wSettingsC₁)]

/-- Configuration wrapping `wSettingsC₂`. -/
def wCfgC₂ : List (String × JValue) := [("additionalSettings", .obj wSettingsC₂)]

/-! ## Lemmas and claim theorems -/

/-- A nonnegative group index within the group count is always extractable. -/
theorem group_ok (m : RMatch) (mg : Int) (h₀ : 0 ≤ mg)
    (hle : mg ≤ (m.groups.length : Int)) : ∃ g, m.group mg = .ok g := by
  unfold RMatch.group
  split_ifs with h1 h2
  · exact ⟨_, rfl⟩
  · exact ⟨_, rfl⟩
  · exact (h2 ⟨by omega, hle⟩).elim

/-- For a nonnegative `matchGroupToUse`, one iteration of the version
loop returns normally and counts a success exactly per `vClaimSuccess`. -/
theorem versionStep_spec (p : String) (mg : Int) (t : String) (h₀ : 0 ≤ mg) :
    ∃ line, versionStep (.str p) mg t = .ok (vClaimSuccess p mg t, line) := by
  unfold versionStep vClaimSuccess
  rcases hr : reSearch p t with e | _ | m
  · simp only [hr]
    exact ⟨_, rfl⟩
  · simp only [hr]
    exact ⟨_, rfl⟩
  · simp only [hr]
    by_cases hle : mg ≤ (m.groups.length : Int)
    · rw [if_pos hle]
      obtain ⟨g, hg⟩ := group_ok m mg h₀ hle
      rw [hg, decide_eq_true hle]
      exact ⟨_, rfl⟩
    · rw [if_neg hle]
      rw [decide_eq_false hle]
      exact ⟨_, rfl⟩

/-- For a nonnegative `matchGroupToUse`, the version loop returns the
number of cases satisfying `vClaimSuccess`. -/
theorem versionLoop_spec (p : String) (mg : Int) (h₀ : 0 ≤ mg) (ts : List String) :
    ∃ lines, runCaseLoop (versionStep (.str p) mg) ts =
      .ok (ts.countP (vClaimSuccess p mg), lines) := by
  induction ts with
  | nil => exact ⟨[], rfl⟩
  | cons t ts ih =>
    obtain ⟨line, hstep⟩ := versionStep_spec p mg t h₀
    obtain ⟨lines, hloop⟩ := ih
    refine ⟨line :: lines, ?_⟩
    simp only [runCaseLoop, hstep, hloop, List.countP_cons]
    cases hb : vClaimSuccess p mg t <;> simp [hb, Nat.add_comm]

/-- One iteration of the APK filter loop returns normally and counts a
success exactly per `apkClaimSuccess`. -/
theorem apkStep_spec (p : String) (c : String × Bool) :
    ∃ line, apkStep (.str p) c = .ok (apkClaimSuccess p c, line) := by
  unfold apkStep apkClaimSuccess
  rcases hr : reSearch p c.1 with e | r
  · simp only [hr]
    exact ⟨_, rfl⟩
  · simp only [hr]
    cases hb : (r.isSome == c.2) <;> exact ⟨_, rfl⟩

/-- The APK filter loop returns the number of cases satisfying
`apkClaimSuccess`. -/
theorem apkLoop_spec (p : String) (cs : List (String × Bool)) :
    ∃ lines, runCaseLoop (apkStep (.str p)) cs =
      .ok (cs.countP (apkClaimSuccess p), lines) := by
  induction cs with
  | nil => exact ⟨[], rfl⟩
  | cons c cs ih =>
    obtain ⟨line, hstep⟩ := apkStep_spec p c
    obtain ⟨lines, hloop⟩ := ih
    refine ⟨line :: lines, ?_⟩
    simp only [runCaseLoop, hstep, hloop, List.countP_cons]
    cases hb : apkClaimSuccess p c <;> simp [hb, Nat.add_comm]

/-- C1 (amended): for a configuration whose settings carry a string
pattern and a nonnegative numeric `matchGroupToUse`,
`test_version_extraction` fails without iterating any case when the
pattern is empty; otherwise it passes exactly when at least 3 of the six
fixed tag strings yield an unanchored match having at least
`matchGroupToUse` capture groups. -/
theorem c1_version_threshold (settings config : List (String × JValue))
    (p : String) (mg : Int)
    (hp : dictLookup settings "versionExtractionRegEx" = some (.str p))
    (hm : dictLookup settings "matchGroupToUse" = some (.num mg))
    (hmg : 0 ≤ mg)
    (hc : dictLookup config "additionalSettings" = some (.obj settings)) :
    (p = "" → test_version_extraction (.obj config) =
      .ok (false, ["❌ No version extraction regex specified"], .obj config))
    ∧ (p ≠ "" → (runBoundary test_version_extraction (.obj config) = true ↔
        3 ≤ versionCases.countP (vClaimSuccess p mg))) := by
  have hset : jvGet (.obj config) "additionalSettings" (.obj []) = .ok (.obj settings) := by
    simp [jvGet, dictGet, hc]
  have hpat : jvGet (.obj settings) "versionExtractionRegEx" (.str "") = .ok (.str p) := by
    simp [jvGet, dictGet, hp]
  have hmgv : jvGet (.obj settings) "matchGroupToUse" (.str "1") = .ok (.num mg) := by
    simp [jvGet, dictGet, hm]
  constructor
  · intro hpe
    subst hpe
    simp only [test_version_extraction, hset, hpat, hmgv, pyInt, truthy]
    rfl
  · intro hne
    have hb : (p == "") = false := beq_eq_false_iff_ne.mpr hne
    obtain ⟨lines, hloop⟩ := versionLoop_spec p mg hmg versionCases
    simp only [runBoundary, test_version_extraction, hset, hpat, hmgv, pyInt, truthy,
      hb, Bool.not_false, Bool.not_true, if_false, hloop]
    split_ifs with h3 <;> simp_all

/-- C2: for a configuration whose settings carry a string filter pattern,
`test_apk_filter` fails without iterating any case when the pattern is
empty; otherwise it passes exactly when at least 5 of the six fixed
(filename, expected) cases have a search outcome equal to the expected
boolean. -/
theorem c2_apk_threshold (settings config : List (String × JValue)) (p : String)
    (hp : dictLookup settings "apkFilterRegEx" = some (.str p))
    (hc : dictLookup config "additionalSettings" = some (.obj settings)) :
    (p = "" → test_apk_filter (.obj config) =
      .ok (false, ["❌ No APK filter regex specified"], .obj config))
    ∧ (p ≠ "" → (runBoundary test_apk_filter (.obj config) = true ↔
        5 ≤ apkCases.countP (apkClaimSuccess p))) := by
  have hset : jvGet (.obj config) "additionalSettings" (.obj []) = .ok (.obj settings) := by
    simp [jvGet, dictGet, hc]
  have hpat : jvGet (.obj settings) "apkFilterRegEx" (.str "") = .ok (.str p) := by
    simp [jvGet, dictGet, hp]
  constructor
  · intro hpe
    subst hpe
    simp only [test_apk_filter, hset, hpat, truthy]
    rfl
  · intro hne
    have hb : (p == "") = false := beq_eq_false_iff_ne.mpr hne
    obtain ⟨lines, hloop⟩ := apkLoop_spec p apkCases
    simp only [runBoundary, test_apk_filter, hset, hpat, truthy,
      hb, Bool.not_false, Bool.not_true, if_false, hloop]
    split_ifs with h5 <;> simp_all [apkCases]

/-- C1 counterexample: with pattern `v` and `matchGroupToUse = -1`, the
claimed equivalence fails at this concrete configuration: every tag counts
as a claim-side success (a match is found and the group count is at least
`-1`), yet the check does not pass, because `match.group(-1)` raises an
error that escapes the check. -/
theorem c1_counterexample :
    ¬ ((runBoundary test_version_extraction (.obj cfgNeg) = true) ↔
        3 ≤ versionCases.countP (vClaimSuccess "v" (-1))) := by
  decide

/-- Witness for `c1_version_threshold` at the semantic-versioning pattern
with match group 1. -/
theorem c1_version_threshold_witness :
    dictLookup wSettingsV "versionExtractionRegEx" = some (.str "v(\\d+\\.\\d+\\.\\d+)")
    ∧ dictLookup wSettingsV "matchGroupToUse" = some (.num 1)
    ∧ (0 : Int) ≤ 1
    ∧ dictLookup wCfgV "additionalSettings" = some (.obj wSettingsV)
    ∧ (("v(\\d+\\.\\d+\\.\\d+)" : String) ≠ "" →
        (runBoundary test_version_extraction (.obj wCfgV) = true ↔
          3 ≤ versionCases.countP (vClaimSuccess "v(\\d+\\.\\d+\\.\\d+)" 1))) :=
  ⟨rfl, rfl, by decide, rfl,
    (c1_version_threshold wSettingsV wCfgV _ 1 rfl rfl (by decide) rfl).2⟩

/-- Witness for `c2_apk_threshold` at the workflow filter pattern. -/
theorem c2_apk_threshold_witness :
    dictLookup wSettingsA "apkFilterRegEx" = some (.str "app-release\\.apk$")
    ∧ dictLookup wCfgA "additionalSettings" = some (.obj wSettingsA)
    ∧ (("app-release\\.apk$" : String) ≠ "" →
        (runBoundary test_apk_filter (.obj wCfgA) = true ↔
          5 ≤ apkCases.countP (apkClaimSuccess "app-release\\.apk$"))) :=
  ⟨rfl, rfl, (c2_apk_threshold wSettingsA wCfgA _ rfl rfl).2⟩

/-- C3 (amended): an absent or unparsable configuration file exits with
status 1 and runs no checks; `load_config` returns the parsed value of a
parsable file; a parsed value that is falsy (for example an empty mapping)
also exits with status 1 and runs no checks; a truthy parsed value
proceeds to the execution of the five checks. -/
theorem c3_load_gate :
    (mainRun .absent = (1, []) ∧ mainRun .invalid = (1, []))
    ∧ (∀ v, load_config (.valid v) = some v)
    ∧ (∀ v, truthy v = false → mainRun (.valid v) = (1, []))
    ∧ (∀ v, truthy v = true → (mainRun (.valid v)).2.length = 5) := by
  refine ⟨⟨rfl, rfl⟩, fun v => rfl, fun v hv => ?_, fun v hv => ?_⟩
  · simp [mainRun, load_config, hv]
  · simp only [mainRun, load_config, hv, Bool.not_true, Bool.false_eq_true, if_false]
    split_ifs <;> simp [checkTable]

/-- C3 counterexample: a file parsing to the empty mapping is well-formed
structured data and `load_config` returns it, yet the run aborts with
status 1 and executes none of the five checks. -/
theorem c3_counterexample :
    load_config (.valid (.obj [])) = some (.obj [])
    ∧ mainRun (.valid (.obj [])) = (1, [])
    ∧ (mainRun (.valid (.obj []))).2.length ≠ 5 :=
  ⟨rfl, rfl, by decide⟩

/-- Witness for `c3_load_gate` at a truthy configuration. -/
theorem c3_load_gate_witness :
    truthy (.obj [("id", JValue.str "x")]) = true
    ∧ (mainRun (.valid (.obj [("id", JValue.str "x")]))).2.length = 5 :=
  ⟨by decide, c3_load_gate.2.2.2 (.obj [("id", JValue.str "x")]) (by decide)⟩

/-- C4: for every truthy loaded configuration the runner records the five
checks in the fixed order required fields, URL validation, version
extraction, APK filter, GitHub compatibility; a fault escaping any check
is caught at the per-check boundary and recorded as a failure of that
check alone (the recorded list always has all five entries); and the exit
status is 0 exactly when all five recorded results are passes, and 1
otherwise. -/
theorem c4_runner (v : JValue) (hv : truthy v = true) :
    (mainRun (.valid v)).2 =
      [runBoundary validate_required_fields v,
       runBoundary validate_urls v,
       runBoundary test_version_extraction v,
       runBoundary test_apk_filter v,
       runBoundary check_github_compatibility v]
    ∧ (∀ (check : JValue → Except PyErr (Bool × List String × JValue)) (e : PyErr),
        check v = .error e → runBoundary check v = false)
    ∧ ((mainRun (.valid v)).1 = 0 ↔ ∀ b ∈ (mainRun (.valid v)).2, b = true)
    ∧ ((mainRun (.valid v)).1 = 0 ∨ (mainRun (.valid v)).1 = 1) := by
  simp only [mainRun, load_config, hv, Bool.not_true, Bool.false_eq_true, if_false]
  refine ⟨?_, ?_, ?_, ?_⟩
  · split_ifs <;> simp [checkTable]
  · intro check e h
    simp [runBoundary, h]
  · split_ifs with h
    · simp only [true_iff]
      intro b hb
      exact (List.count_eq_length.mp h b hb).symm
    · simp only [Nat.one_ne_zero, false_iff]
      intro hall
      exact h (List.count_eq_length.mpr (fun b hb => (hall b hb).symm))
  · split_ifs <;> simp

/-- Witness for `c4_runner` at a truthy non-mapping configuration. -/
theorem c4_runner_witness :
    truthy (.str "x") = true
    ∧ (mainRun (.valid (.str "x"))).2 =
      [runBoundary validate_required_fields (.str "x"),
       runBoundary validate_urls (.str "x"),
       runBoundary test_version_extraction (.str "x"),
       runBoundary test_apk_filter (.str "x"),
       runBoundary check_github_compatibility (.str "x")] :=
  ⟨by decide, (c4_runner (.str "x") (by decide)).1⟩

/-- C8: the end-to-end configuration with filter pattern
`app-release\.apk$`, version pattern `v(\d+\.\d+\.\d+)`, defaulted match
group 1, all required fields truthy, a well-prefixed `url` and no
`sourceUrl` passes all five checks and exits with status 0. -/
theorem c8_end_to_end : mainRun (.valid cfg8) = (0, [true, true, true, true, true]) := by
  decide

/-- C5: for every configuration whose `url` is a string and whose
`sourceUrl` read (with empty-string default) is a string, `validate_urls`
fails when `url` does not start with `https://github.com/`; fails when a
non-empty `sourceUrl` differs from `url`; and passes when `url` is
well-prefixed and `sourceUrl` is absent, empty, or exactly `url`. -/
theorem c5_urls (config : List (String × JValue)) (url src : String)
    (hu : dictLookup config "url" = some (.str url))
    (hs : dictGet config "sourceUrl" (.str "") = .str src) :
    (startsWithStr url "https://github.com/" = false →
      runBoundary validate_urls (.obj config) = false)
    ∧ (src ≠ "" → src ≠ url → runBoundary validate_urls (.obj config) = false)
    ∧ (startsWithStr url "https://github.com/" = true → (src = "" ∨ src = url) →
      runBoundary validate_urls (.obj config) = true) := by
  have hu' : jvGet (.obj config) "url" (.str "") = .ok (.str url) := by
    simp [jvGet, dictGet, hu]
  have hs' : jvGet (.obj config) "sourceUrl" (.str "") = .ok (.str src) := by
    simp [jvGet, hs]
  simp only [runBoundary, validate_urls, hu', hs', truthy, pyEqStr]
  refine ⟨fun hpre => ?_, fun hne hnd => ?_, fun hpre hok => ?_⟩
  · simp [hpre]
  · have h₁ : (src == "") = false := beq_eq_false_iff_ne.mpr hne
    have h₂ : (src == url) = false := beq_eq_false_iff_ne.mpr hnd
    split_ifs <;> simp_all
  · have h₁ : (!(startsWithStr url "https://github.com/")) = false := by simp [hpre]
    rcases hok with h | h
    · subst h
      simp [h₁]
    · subst h
      simp [h₁]

/-- Witness for `c5_urls`: a well-prefixed `url` with `sourceUrl` absent. -/
theorem c5_urls_witness :
    dictLookup wCfgU "url" = some (.str "https://github.com/x/y")
    ∧ dictGet wCfgU "sourceUrl" (.str "") = .str ""
    ∧ (startsWithStr "https://github.com/x/y" "https://github.com/" = true →
        ((("" : String) = "") ∨ (("" : String) = "https://github.com/x/y")) →
        runBoundary validate_urls (.obj wCfgU) = true) :=
  ⟨rfl, rfl, (c5_urls wCfgU "https://github.com/x/y" "" rfl rfl).2.2⟩

/-- C6: `validate_required_fields` passes exactly when each of the five
required keys is present with a truthy value; a field is missing when
absent or present but falsy; and on failure the check reports the
complete list of missing field names in a single message. -/
theorem c6_fields (fields : List (String × JValue)) :
    (runBoundary validate_required_fields (.obj fields) = true ↔
      ∀ f ∈ requiredFields, ∃ v, dictLookup fields f = some v ∧ truthy v = true)
    ∧ (∀ f, f ∈ missingOf fields ↔
        f ∈ requiredFields ∧ ¬ ∃ v, dictLookup fields f = some v ∧ truthy v = true)
    ∧ (missingOf fields ≠ [] → validate_required_fields (.obj fields) =
        .ok (false,
          ["❌ Missing required fields: " ++ String.intercalate ", " (missingOf fields)],
          .obj fields)) := by
  have hpred : ∀ f,
      ((match dictLookup fields f with
        | none => true
        | some v => !(truthy v)) = true) ↔
      ¬ ∃ v, dictLookup fields f = some v ∧ truthy v = true := by
    intro f
    cases h : dictLookup fields f <;> simp [h]
  refine ⟨?_, fun f => ?_, fun hne => ?_⟩
  · simp only [runBoundary, validate_required_fields]
    split_ifs with h
    · simp only [true_iff]
      intro f hf
      have hnil : missingOf fields = [] := List.isEmpty_iff.mp h
      have := List.filter_eq_nil_iff.mp hnil f hf
      rw [hpred f] at this
      exact not_not.mp this
    · simp only [Bool.false_eq_true, false_iff, not_forall]
      have hne : missingOf fields ≠ [] := by
        intro hc
        rw [missingOf] at hc
        simp [List.isEmpty_iff, missingOf, hc] at h
      obtain ⟨f, hf⟩ := List.exists_mem_of_ne_nil _ hne
      have hmem := List.mem_filter.mp hf
      refine ⟨f, hmem.1, ?_⟩
      rw [← hpred f]
      simp [hmem.2]
  · rw [missingOf, List.mem_filter]
    constructor
    · rintro ⟨h₁, h₂⟩
      exact ⟨h₁, (hpred f).mp h₂⟩
    · rintro ⟨h₁, h₂⟩
      exact ⟨h₁, (hpred f).mpr h₂⟩
  · simp only [validate_required_fields]
    rw [if_neg]
    simp [List.isEmpty_iff, hne]

/-- Witness for `c6_fields`: `name` empty and `description` absent are
both reported, in one message. -/
theorem c6_fields_witness :
    missingOf wFieldsMissing ≠ []
    ∧ validate_required_fields (.obj wFieldsMissing) =
        .ok (false,
          ["❌ Missing required fields: " ++ String.intercalate ", " (missingOf wFieldsMissing)],
          .obj wFieldsMissing) :=
  ⟨by decide, (c6_fields wFieldsMissing).2.2 (by decide)⟩

/-- The value of the compatibility check for string patterns: both
substring checks must hold; the prerelease flag does not occur. -/
theorem compat_val (settings config : List (String × JValue)) (a v : String)
    (ha : dictLookup settings "apkFilterRegEx" = some (.str a))
    (hv : dictLookup settings "versionExtractionRegEx" = some (.str v))
    (hc : dictLookup config "additionalSettings" = some (.obj settings)) :
    runBoundary check_github_compatibility (.obj config) =
      (subOf "app-release".toList a.toList &&
        (subOf "v(".toList v.toList && subOf "\\d+\\.\\d+\\.\\d+".toList v.toList)) := by
  have hset : jvGet (.obj config) "additionalSettings" (.obj []) = .ok (.obj settings) := by
    simp [jvGet, dictGet, hc]
  have hapk : jvGet (.obj settings) "apkFilterRegEx" (.str "") = .ok (.str a) := by
    simp [jvGet, dictGet, ha]
  have hver : jvGet (.obj settings) "versionExtractionRegEx" (.str "") = .ok (.str v) := by
    simp [jvGet, dictGet, hv]
  simp only [runBoundary, check_github_compatibility, hset, hapk, hver, pyInStr]
  cases hA : subOf "app-release".toList a.toList <;>
    cases hB : subOf "v(".toList v.toList <;>
      cases hC : subOf "\\d+\\.\\d+\\.\\d+".toList v.toList <;>
        simp [hA, hB, hC, jvGet]

/-- C7: for every configuration whose settings carry string patterns,
`check_github_compatibility` passes exactly when the filter pattern
contains `app-release` and the version pattern contains both `v(` and
`\d+\.\d+\.\d+`; the `includePrereleases` value never affects the
result (two configurations agreeing on the two patterns yield the same
result whatever their prerelease settings). -/
theorem c7_compat (settings config settings₂ config₂ : List (String × JValue))
    (a v : String)
    (ha : dictLookup settings "apkFilterRegEx" = some (.str a))
    (hv : dictLookup settings "versionExtractionRegEx" = some (.str v))
    (hc : dictLookup config "additionalSettings" = some (.obj settings))
    (ha₂ : dictLookup settings₂ "apkFilterRegEx" = some (.str a))
    (hv₂ : dictLookup settings₂ "versionExtractionRegEx" = some (.str v))
    (hc₂ : dictLookup config₂ "additionalSettings" = some (.obj settings₂)) :
    (runBoundary check_github_compatibility (.obj config) = true ↔
      (subOf "app-release".toList a.toList = true
        ∧ subOf "v(".toList v.toList = true
        ∧ subOf "\\d+\\.\\d+\\.\\d+".toList v.toList = true))
    ∧ runBoundary check_github_compatibility (.obj config) =
        runBoundary check_github_compatibility (.obj config₂) := by
  rw [compat_val settings config a v ha hv hc,
    compat_val settings₂ config₂ a v ha₂ hv₂ hc₂]
  simp [Bool.and_eq_true]

/-- Witness for `c7_compat`: the workflow patterns with prereleases
disabled in one configuration and enabled in the other. -/
theorem c7_compat_witness :
    dictLookup wSettingsC₁ "apkFilterRegEx" = some (.str "app-release\\.apk$")
    ∧ dictLookup wSettingsC₂ "includePrereleases" = some (.bool true)
    ∧ runBoundary check_github_compatibility (.obj wCfgC₁) =
        runBoundary check_github_compatibility (.obj wCfgC₂) :=
  ⟨rfl, rfl,
    (c7_compat wSettingsC₁ wCfgC₁ wSettingsC₂ wCfgC₂ _ _ rfl rfl rfl rfl rfl rfl).2⟩

/-- C9: none of the five checks mutates the configuration: on every
input value each check either raises (leaving the value untouched) or
returns normally with the configuration component exactly the input,
nested settings included. -/
theorem c9_no_mutation (v : JValue) :
    ((∃ e, validate_required_fields v = .error e)
      ∨ ∃ b out, validate_required_fields v = .ok (b, out, v))
    ∧ ((∃ e, validate_urls v = .error e)
      ∨ ∃ b out, validate_urls v = .ok (b, out, v))
    ∧ ((∃ e, test_version_extraction v = .error e)
      ∨ ∃ b out, test_version_extraction v = .ok (b, out, v))
    ∧ ((∃ e, test_apk_filter v = .error e)
      ∨ ∃ b out, test_apk_filter v = .ok (b, out, v))
    ∧ ((∃ e, check_github_compatibility v = .error e)
      ∨ ∃ b out, check_github_compatibility v = .ok (b, out, v)) := by
  refine ⟨?_, ?_, ?_, ?_, ?_⟩
  · unfold validate_required_fields
    cases v <;> try exact .inl ⟨_, rfl⟩
    dsimp only
    split_ifs <;> exact .inr ⟨_, _, rfl⟩
  · unfold validate_urls
    rcases h₁ : jvGet v "url" (.str "") with e | u
    · simp only [h₁]
      exact .inl ⟨e, rfl⟩
    rcases h₂ : jvGet v "sourceUrl" (.str "") with e | s
    · simp only [h₁, h₂]
      exact .inl ⟨e, rfl⟩
    simp only [h₁, h₂]
    cases u <;> try exact .inl ⟨_, rfl⟩
    dsimp only
    split_ifs <;> exact .inr ⟨_, _, rfl⟩
  · unfold test_version_extraction
    rcases h₁ : jvGet v "additionalSettings" (.obj []) with e | s
    · simp only [h₁]
      exact .inl ⟨e, rfl⟩
    rcases h₂ : jvGet s "versionExtractionRegEx" (.str "") with e | pv
    · simp only [h₁, h₂]
      exact .inl ⟨e, rfl⟩
    rcases h₃ : jvGet s "matchGroupToUse" (.str "1") with e | mv
    · simp only [h₁, h₂, h₃]
      exact .inl ⟨e, rfl⟩
    rcases h₄ : pyInt mv with e | mg
    · simp only [h₁, h₂, h₃, h₄]
      exact .inl ⟨e, rfl⟩
    simp only [h₁, h₂, h₃, h₄]
    split_ifs with ht
    · exact .inr ⟨_, _, rfl⟩
    rcases h₅ : runCaseLoop (versionStep pv mg) versionCases with e | nl
    · simp only [h₅]
      exact .inl ⟨e, rfl⟩
    obtain ⟨n, lines⟩ := nl
    simp only [h₅]
    split_ifs <;> exact .inr ⟨_, _, rfl⟩
  · unfold test_apk_filter
    rcases h₁ : jvGet v "additionalSettings" (.obj []) with e | s
    · simp only [h₁]
      exact .inl ⟨e, rfl⟩
    rcases h₂ : jvGet s "apkFilterRegEx" (.str "") with e | pv
    · simp only [h₁, h₂]
      exact .inl ⟨e, rfl⟩
    simp only [h₁, h₂]
    split_ifs with ht
    · exact .inr ⟨_, _, rfl⟩
    rcases h₃ : runCaseLoop (apkStep pv) apkCases with e | nl
    · simp only [h₃]
      exact .inl ⟨e, rfl⟩
    obtain ⟨n, lines⟩ := nl
    simp only [h₃]
    split_ifs <;> exact .inr ⟨_, _, rfl⟩
  · unfold check_github_compatibility
    rcases h₁ : jvGet v "additionalSettings" (.obj []) with e | s
    · simp only [h₁]
      exact .inl ⟨e, rfl⟩
    rcases h₂ : jvGet s "apkFilterRegEx" (.str "") with e | av
    · simp only [h₁, h₂]
      exact .inl ⟨e, rfl⟩
    rcases h₃ : pyInStr "app-release" av with e | c₁
    · simp only [h₁, h₂, h₃]
      exact .inl ⟨e, rfl⟩
    rcases h₄ : jvGet s "versionExtractionRegEx" (.str "") with e | vv
    · simp only [h₁, h₂, h₃, h₄]
      exact .inl ⟨e, rfl⟩
    rcases h₅ : pyInStr "v(" vv with e | c₂a
    · simp only [h₁, h₂, h₃, h₄, h₅]
      exact .inl ⟨e, rfl⟩
    rcases h₆ : (if c₂a then pyInStr "\\d+\\.\\d+\\.\\d+" vv else .ok false) with e | c₂b
    · simp only [h₁, h₂, h₃, h₄, h₅, h₆]
      exact .inl ⟨e, rfl⟩
    rcases h₇ : jvGet s "includePrereleases" (.bool true) with e | pv
    · simp only [h₁, h₂, h₃, h₄, h₅, h₆, h₇]
      exact .inl ⟨e, rfl⟩
    simp only [h₁, h₂, h₃, h₄, h₅, h₆, h₇]
    split_ifs <;> exact .inr ⟨_, _, rfl⟩

/-- C10: in a version-loop iteration with a string pattern and
`matchGroupToUse ≥ 1`, the group lookup of the success branch is guarded
by the group-count test and cannot raise; the iteration always returns
normally; and a pattern-compilation failure is caught inside the loop and
recorded as that case's failure. -/
theorem c10_group_guard (p : String) (mg : Int) (t : String) (h : 1 ≤ mg) :
    (∀ m : RMatch, mg ≤ (m.groups.length : Int) → ∃ g, m.group mg = .ok g)
    ∧ (∃ r, versionStep (.str p) mg t = .ok r)
    ∧ (reSearch p t = .error () → versionStep (.str p) mg t =
        .ok (false, "  ❌ Regex error for " ++ t)) := by
  refine ⟨fun m hm => group_ok m mg (by omega) hm, ?_, fun hr => ?_⟩
  · obtain ⟨line, hs⟩ := versionStep_spec p mg t (by omega)
    exact ⟨_, hs⟩
  · simp only [versionStep, hr]

/-- Witness for `c10_group_guard` at a one-group pattern. -/
theorem c10_group_guard_witness :
    (1 : Int) ≤ 1 ∧ ∃ r, versionStep (.str "v(x)") 1 "vx" = .ok r :=
  ⟨by decide, (c10_group_guard "v(x)" 1 "vx" (by decide)).2.1⟩
